import Mathlib

/-!
Verification development for the flow compiler of `pydantic-ai-flow`
(`src/backend/server.py`).  The Python source is embedded shallowly: pydantic
models become structures, and the code-generation function
`generate_python_code` (lines 218-348) becomes a fuel-indexed function whose
`none` outcome means the `while` loop at line 263 has not terminated within
the given fuel.  Python exceptions (`KeyError` from the dict subscript at
lines 276-280, `AttributeError` from reading an attribute that the pydantic
model does not declare) are embedded with `Except`.

A central fact of the source, reflected in the embedding and proved below:
`AgentConfig` (lines 49-60) declares only the snake_case fields
`system_prompts`, `max_tokens`, `response_tokens_limit`, `total_tokens_limit`
and `selected_output_fields`, while the loop body of `generate_python_code`
reads the camelCase attributes `selectedOutputFields` (line 288),
`systemPrompts` (line 308), `maxTokens` (line 316), `responseTokensLimit`
(line 317) and `totalTokensLimit` (line 318).  On a pydantic `BaseModel`,
reading an undeclared attribute raises `AttributeError`.
-/

namespace PydanticAiFlow

/-- `OutputField` (server.py lines 34-37). -/
structure OutputField where
  name : String
  type : String
  description : Option String
deriving DecidableEq, Repr

/-- `OutputStructure` (server.py lines 39-41). -/
structure OutputStructure where
  name : String
  fields : List OutputField
deriving DecidableEq, Repr

/-- `AgentConfig` (server.py lines 49-60).  Field names are exactly the
snake_case names the pydantic model declares. -/
structure AgentConfig where
  label : String
  model_provider : String
  model_name : String
  temperature : Float
  max_tokens : Int
  system_prompts : List String
  response_tokens_limit : Int
  total_tokens_limit : Int
  output_structure : Option OutputStructure
  selected_output_fields : Option (List String)

/-- `FlowNode` (server.py lines 203-207).  `position : Dict[str, float]` is
kept as an opaque association list; it is never read by the compiler. -/
structure FlowNode where
  id : String
  type : String
  config : AgentConfig
  position : List (String × Float)

/-- `FlowEdge` (server.py lines 209-212). -/
structure FlowEdge where
  id : String
  source : String
  target : String

/-- The semantic value types of `create_output_model`'s `field_types` dict
(server.py lines 90-97), plus `any` for the `typing.Any` default of
`field_types.get(field.type, Any)` at line 101. -/
inductive PyType where
  | str
  | int
  | float
  | bool
  | listStr
  | dictStrAny
  | any
deriving DecidableEq, Repr

/-- `field_types.get(field.type, Any)` (server.py lines 90-97 and 101): dict
lookup with default `Any`. -/
def field_types_get (t : String) : PyType :=
  if t = "str" then PyType.str
  else if t = "int" then PyType.int
  else if t = "float" then PyType.float
  else if t = "bool" then PyType.bool
  else if t = "list[str]" then PyType.listStr
  else if t = "dict" then PyType.dictStrAny
  else PyType.any

/-- A Python `dict` with string keys, as an association list in insertion
order: assignment replaces the value at an existing key in place, otherwise
appends. -/
def pyInsert {α : Type} : List (String × α) → String → α → List (String × α)
  | [], k, v => [(k, v)]
  | (k', v') :: rest, k, v =>
      if k' = k then (k, v) :: rest else (k', v') :: pyInsert rest k v

/-- Python `dict` subscript as an `Option` (a miss is a `KeyError` at the
call sites below). -/
def pyLookup {α : Type} : List (String × α) → String → Option α
  | [], _ => none
  | (k', v) :: rest, k => if k' = k then some v else pyLookup rest k

/-- The model produced by `create_model(output_structure.name, **fields)`
(server.py line 107): its name together with the resolved
`(field name, semantic type, description)` triples. -/
structure CreatedModel where
  name : String
  fields : List (String × PyType × String)
deriving DecidableEq, Repr

/-- `create_output_model` (server.py lines 88-107).  The dict comprehension
at lines 99-105 is embedded with Python dict-insertion semantics; the
description defaults per `field.description or ""` (line 102): `None` and
`""` both render as `""`. -/
def create_output_model (os : OutputStructure) : CreatedModel :=
  { name := os.name
    fields := os.fields.foldl
      (fun d f => pyInsert d f.name (field_types_get f.type, f.description.getD ""))
      [] }

/-- Python exceptions raised by `generate_python_code`. -/
inductive PyErr where
  | keyError (key : String)
  | attributeError (attr : String)
deriving DecidableEq, Repr

/-- `get_input_nodes` (server.py lines 260-261):
`[edge.source for edge in edges if edge.target == node_id]`. -/
def get_input_nodes (edges : List FlowEdge) (node_id : String) : List String :=
  (edges.filter (fun e => e.target = node_id)).map (fun e => e.source)

/-- The mutable locals of the `while` loop of `generate_python_code`:
`processed_nodes` (a set of ids, kept as a duplicate-free list),
`node_outputs` (dict id → variable name) and the accumulated `code` lines. -/
structure GenState where
  processed : List String
  node_outputs : List (String × String)
  code : List String

/-- The `for input_id in input_nodes` loop of lines 286-290.  Each iteration
first subscripts `nodes_by_id[input_id]` (`KeyError` on a miss) and then
reads `input_node.config.selectedOutputFields` — an attribute `AgentConfig`
does not declare (it declares `selected_output_fields`), so the read raises
`AttributeError` on the first iteration; lines 289-290 are unreachable. -/
def collectSelectedFields (nodes_by_id : List (String × FlowNode)) :
    List String → List String → Except PyErr (List String)
  | [], acc => Except.ok acc
  | input_id :: _rest, _acc =>
      match pyLookup nodes_by_id input_id with
      | none => Except.error (PyErr.keyError input_id)
      | some _input_node => Except.error (PyErr.attributeError "selectedOutputFields")

/-- Lines 283-292: `input_construction` starts as `"prompt"`; when
`input_nodes` is non-empty the selected fields are collected (which raises,
see `collectSelectedFields`) and, were that to succeed with a non-empty
list, the `'prompt' + Context` expression text of line 292 would be built. -/
def buildInputConstruction (nodes_by_id : List (String × FlowNode))
    (input_nodes : List String) : Except PyErr String :=
  match input_nodes with
  | [] => Except.ok "prompt"
  | _ :: _ =>
      match collectSelectedFields nodes_by_id input_nodes [] with
      | Except.error e => Except.error e
      | Except.ok selected_fields =>
          if selected_fields.isEmpty then Except.ok "prompt"
          else Except.ok
            ("prompt + '\\n\\nContext: ' + ' '.join([str(x) for x in ["
              ++ String.intercalate ", " selected_fields ++ "]])")

/-- The `model_setup` dict subscript of lines 276-280: a plain dict literal
indexed by `node.config.model_provider`, raising `KeyError` for a provider
outside `{openai, anthropic, google-gla}`. -/
def modelSetupLookup (provider : String) : Except PyErr String :=
  if provider = "openai" then Except.ok "OpenAIModel"
  else if provider = "anthropic" then Except.ok "AnthropicModel"
  else if provider = "google-gla" then Except.ok "GeminiModel"
  else Except.error (PyErr.keyError provider)

/-- The loop body for one eligible node (server.py lines 272-329), executed
in source order:
1. line 272-273: `var_name` and the `node_outputs` assignment;
2. lines 276-280: the `model_setup` dict subscript (`KeyError` possible);
3. lines 282-292: `input_construction` (see `buildInputConstruction`);
4. lines 294-297: `result_type` from `node.config.output_structure` (a
   declared snake_case attribute, so this read succeeds);
5. line 299 onwards: `code.extend([...])` — the f-string elements of the
   list literal are evaluated left to right, and the element of line 308
   reads `node.config.systemPrompts`, an attribute `AgentConfig` does not
   declare, raising `AttributeError`.  Everything after that evaluation —
   the remaining f-strings of lines 315-318 (which would raise on
   `maxTokens`, `responseTokensLimit`, `totalTokensLimit` in turn),
   the `code.extend` itself, `results.append` and crucially
   `processed_nodes.add(node.id)` at line 329 — is therefore unreachable,
   so the body never returns an updated state. -/
def processNode (nodes_by_id : List (String × FlowNode)) (st : GenState)
    (node : FlowNode) (input_nodes : List String) : Except PyErr GenState :=
  let var_name := "result_" ++ node.id
  let _node_outputs := pyInsert st.node_outputs node.id var_name
  match modelSetupLookup node.config.model_provider with
  | Except.error e => Except.error e
  | Except.ok _model_setup =>
      match buildInputConstruction nodes_by_id input_nodes with
      | Except.error e => Except.error e
      | Except.ok _input_construction =>
          Except.error (PyErr.attributeError "systemPrompts")

/-- One iteration of the `for node in nodes` scan (lines 264-269): skip a
node already in `processed_nodes`, skip a node that has an input outside
`processed_nodes`, otherwise run the body. -/
def scanStep (nodes_by_id : List (String × FlowNode)) (edges : List FlowEdge)
    (st : GenState) (node : FlowNode) : Except PyErr GenState :=
  if node.id ∈ st.processed then Except.ok st
  else
    let input_nodes := get_input_nodes edges node.id
    if input_nodes.all (fun n => st.processed.contains n) then
      processNode nodes_by_id st node input_nodes
    else Except.ok st

/-- One full scan of the node list in declaration order (the `for` loop of
line 264); an exception raised by the body aborts the whole scan and
propagates. -/
def scan (nodes_by_id : List (String × FlowNode)) (edges : List FlowEdge) :
    List FlowNode → GenState → Except PyErr GenState
  | [], st => Except.ok st
  | node :: rest, st =>
      match scanStep nodes_by_id edges st node with
      | Except.error e => Except.error e
      | Except.ok st' => scan nodes_by_id edges rest st'

/-- The `while len(processed_nodes) < len(nodes)` loop (line 263), indexed
by fuel: `none` means the loop was still running after `fuel` scans. -/
def genLoop (nodes : List FlowNode) (nodes_by_id : List (String × FlowNode))
    (edges : List FlowEdge) : Nat → GenState → Option (Except PyErr GenState)
  | 0, st =>
      if st.processed.length < nodes.length then none else some (Except.ok st)
  | fuel + 1, st =>
      if st.processed.length < nodes.length then
        match scan nodes_by_id edges nodes st with
        | Except.error e => some (Except.error e)
        | Except.ok st' => genLoop nodes nodes_by_id edges fuel st'
      else some (Except.ok st)

/-- The fixed import header of lines 219-228. -/
def headerLines : List String :=
  [ "from typing import Optional, List, Dict, Any, Union",
    "from pydantic import BaseModel, Field",
    "from pydantic_ai import Agent",
    "from pydantic_ai.models.openai import OpenAIModel",
    "from pydantic_ai.models.anthropic import AnthropicModel",
    "from pydantic_ai.models.gemini import GeminiModel",
    "",
    "# Output Models" ]

/-- One field line of an emitted output model (lines 234-238); Python's
`if field.description:` is falsy for both `None` and `""`. -/
def fieldLine (f : OutputField) : String :=
  let base := "    " ++ f.name ++ ": " ++ f.type
  match f.description with
  | none => base
  | some d =>
      if d = "" then base
      else base ++ " = Field(description=\"" ++ d ++ "\")"

/-- The `# Output Models` section (lines 230-244): one class per node that
declares an `output_structure` (a snake_case attribute, read successfully). -/
def outputModelLines (nodes : List FlowNode) : List String :=
  nodes.foldl
    (fun acc node =>
      match node.config.output_structure with
      | some os =>
          acc ++ ["class " ++ os.name ++ "(BaseModel):"]
            ++ os.fields.map fieldLine ++ [""]
      | none => acc)
    []

/-- The `run_flow` header emitted before the loop (lines 246-251). -/
def flowHeaderLines : List String :=
  [ "def run_flow(prompt: str, credentials: dict) -> List[Dict[str, Any]]:",
    "    results = []",
    "" ]

/-- The trailing example-usage block (lines 331-346). -/
def footerLines : List String :=
  [ "    return results",
    "",
    "if __name__ == '__main__':",
    "    # Example usage",
    "    credentials = \x7b",
    "        'openai_api_key': 'your-openai-key',",
    "        'anthropic_api_key': 'your-anthropic-key',",
    "        'google_api_key': 'your-google-key'",
    "    \x7d",
    "    results = run_flow('Your prompt here', credentials)",
    "    for result in results:",
    "        print(f\"Node \x7bresult['node_id']\x7d output:\")",
    "        print(result['result'])",
    "" ]

/-- `nodes_by_id = {node.id: node for node in nodes}` (line 258). -/
def nodes_by_id_of (nodes : List FlowNode) : List (String × FlowNode) :=
  nodes.foldl (fun d n => pyInsert d n.id n) []

/-- `generate_python_code` (server.py lines 218-348), with fuel for the
`while` loop of line 263.  `none`: the loop has not terminated within
`fuel` scans; `some (Except.error e)`: the Python function raised `e`;
`some (Except.ok s)`: it returned the joined source text `s`. -/
def generate_python_code (fuel : Nat) (nodes : List FlowNode)
    (edges : List FlowEdge) : Option (Except PyErr String) :=
  let code0 := headerLines ++ outputModelLines nodes ++ flowHeaderLines
  let nodes_by_id := nodes_by_id_of nodes
  match genLoop nodes nodes_by_id edges fuel ⟨[], [], code0⟩ with
  | none => none
  | some (Except.error e) => some (Except.error e)
  | some (Except.ok st) =>
      some (Except.ok (String.intercalate "\n" (st.code ++ footerLines)))

/-- Replace a node's `selected_output_fields` (and nothing else). -/
def set_selected_output_fields (v : Option (List String)) (n : FlowNode) : FlowNode :=
  { n with config := { n.config with selected_output_fields := v } }

/-- A minimal `AgentConfig` for concrete test graphs. -/
def mkConfig (provider : String) (os : Option OutputStructure)
    (sel : Option (List String)) : AgentConfig :=
  { label := "L"
    model_provider := provider
    model_name := "gpt-4"
    temperature := 0.0
    max_tokens := 100
    system_prompts := ["sys"]
    response_tokens_limit := 100
    total_tokens_limit := 100
    output_structure := os
    selected_output_fields := sel }

/-- A node with the given id, provider, output structure and selection. -/
def mkNode (id provider : String) (os : Option OutputStructure)
    (sel : Option (List String)) : FlowNode :=
  ⟨id, "agent", mkConfig provider os sel, []⟩

/-- `generate_python_code` diverges on `nodes`/`edges`: for every fuel the
`while` loop of line 263 is still running, so the function neither raises
nor returns. -/
def loopsForeverOn (nodes : List FlowNode) (edges : List FlowEdge) : Prop :=
  ∀ fuel, generate_python_code fuel nodes edges = none

/-- A single node with a self-loop edge (`source == target`). -/
def selfLoopNodes : List FlowNode := [mkNode "A" "openai" none none]

/-- The self-loop edge `A → A`. -/
def selfLoopEdges : List FlowEdge := [⟨"e1", "A", "A"⟩]

/-- Two nodes forming a two-cycle `A → B → A`. -/
def twoCycleNodes : List FlowNode :=
  [mkNode "A" "openai" none none, mkNode "B" "openai" none none]

/-- The edges of the two-cycle. -/
def twoCycleEdges : List FlowEdge := [⟨"e1", "A", "B"⟩, ⟨"e2", "B", "A"⟩]

/-- A single no-input node `A` (used with an empty edge list). -/
def singleNodeA : List FlowNode := [mkNode "A" "openai" none none]

/-- Two no-input nodes declared in order `[A, B]` (used with an empty
edge list). -/
def pairNodesAB : List FlowNode :=
  [mkNode "A" "openai" none none, mkNode "B" "openai" none none]

/-- A supported-provider node `A` followed by a node `B` whose
`model_provider` is the unrecognized string `"unknown"`. -/
def providerMixNodes : List FlowNode :=
  [mkNode "A" "openai" none none, mkNode "B" "unknown" none none]

/-- A single node whose `model_provider` is `"unknown"`. -/
def unknownProviderNode : FlowNode := mkNode "B" "unknown" none none

/-- The structure `{summary: str}` used by the context-binding example. -/
def summaryStructure (n : String) : OutputStructure :=
  ⟨n, [⟨"summary", "str", none⟩]⟩

/-- Nodes A, B (each selecting its `summary` field) feeding C. -/
def contextNodes : List FlowNode :=
  [ mkNode "A" "openai" (some (summaryStructure "AOut")) (some ["summary"]),
    mkNode "B" "openai" (some (summaryStructure "BOut")) (some ["summary"]),
    mkNode "C" "openai" none none ]

/-- The edges `A → C` and `B → C`, in that order. -/
def contextEdges : List FlowEdge := [⟨"e1", "A", "C"⟩, ⟨"e2", "B", "C"⟩]

/-- A node whose `selected_output_fields = ["x"]` names a field absent from
its own `output_structure` (whose only field is `"y"`). -/
def danglingSelNode : FlowNode :=
  mkNode "C" "openai" (some ⟨"COut", [⟨"y", "str", none⟩]⟩) (some ["x"])

/-- The same node with a valid selection `["y"]`. -/
def validSelNode : FlowNode :=
  mkNode "C" "openai" (some ⟨"COut", [⟨"y", "str", none⟩]⟩) (some ["y"])

/-- Apply a node transformation to every value of a `nodes_by_id` dict. -/
def pyMapVal (g : FlowNode → FlowNode) (d : List (String × FlowNode)) :
    List (String × FlowNode) :=
  d.map (fun p => (p.1, g p.2))

/-! ### The result handling of `run_agent` (server.py lines 172-189) -/

/-- The runtime value of `result.data` in `run_agent`.  Besides the two
shapes the `pydantic_ai` agent contract can produce — a `str` (when
`result_type` is `str`) and an instance of the model built by
`create_output_model` — the type also has value shapes with no instance
dict, so that the `hasattr` test below is a genuine branch. -/
inductive PyData where
  | pyStr (s : String)
  | pyModelInstance (fields : List (String × String))
  | pyNone
  | pyInt (n : Int)

/-- `isinstance(result.data, str)` (line 173). -/
def isinstance_str : PyData → Bool
  | PyData.pyStr _ => true
  | _ => false

/-- `hasattr(result.data, '__dict__')` (line 178): a pydantic model
instance stores its fields in an instance dict; `str`, `None` and `int`
values have no instance dict. -/
def has_dict_attr : PyData → Bool
  | PyData.pyModelInstance _ => true
  | _ => false

/-- The `str` payload (only read under the `isinstance` guard). -/
def pyStrOf : PyData → String
  | PyData.pyStr s => s
  | _ => ""

/-- `str(result.data)` (line 180): an opaque deterministic rendering; its
exact text is irrelevant to the classification. -/
def pyReprOf : PyData → String
  | PyData.pyStr s => s
  | PyData.pyModelInstance fs =>
      String.intercalate " " (fs.map (fun p => p.1 ++ "=" ++ p.2))
  | PyData.pyNone => "None"
  | PyData.pyInt n => toString n

/-- `result.data.__dict__` (line 181), defined on model instances. -/
def pyDictOf : PyData → Option (List (String × String))
  | PyData.pyModelInstance fs => some fs
  | _ => none

/-- The classification-relevant part of `AgentRunResponse` (lines 81-86). -/
structure AgentRunResponseData where
  result : String
  structured_output : Option (List (String × String))
  error : Option String
deriving DecidableEq, Repr

/-- The `result.data` dispatch of `run_agent` (server.py lines 172-189):
`str` data → plain response; data with an instance dict → structured
response; anything else → the generic catch-all response with
`error="UnexpectedResultType"`. -/
def handle_result_data (d : PyData) : AgentRunResponseData :=
  if isinstance_str d then
    { result := pyStrOf d, structured_output := none, error := none }
  else if has_dict_attr d then
    { result := pyReprOf d, structured_output := pyDictOf d, error := none }
  else
    { result := "Error: Unexpected result type", structured_output := none,
      error := some "UnexpectedResultType" }

/-- The `pydantic_ai` agent interface (an external collaborator, spec §6):
`agent.run` is created with `result_type=result_type or str` (line 154), so
`result.data` is either a `str` or an instance of the created model. -/
inductive ReachableData : PyData → Prop
  | ofStr (s : String) : ReachableData (PyData.pyStr s)
  | ofStructured (fs : List (String × String)) :
      ReachableData (PyData.pyModelInstance fs)

/-! ### Helper lemmas about the scan loop -/

/-- The loop body never completes: the `code.extend` list literal of line
299 always evaluates the undeclared attribute `node.config.systemPrompts`
(line 308) unless the `model_setup` subscript (lines 276-280) or the
selected-fields loop (lines 286-290) raised first. -/
theorem processNode_error (nodes_by_id : List (String × FlowNode))
    (st : GenState) (node : FlowNode) (input_nodes : List String) :
    ∃ e, processNode nodes_by_id st node input_nodes = Except.error e := by
  unfold processNode
  split
  · exact ⟨_, rfl⟩
  · split
    · exact ⟨_, rfl⟩
    · exact ⟨_, rfl⟩

/-- A scan step either raises or leaves the state unchanged — in
particular `processed_nodes` never grows. -/
theorem scanStep_cases (nodes_by_id : List (String × FlowNode))
    (edges : List FlowEdge) (st : GenState) (node : FlowNode) :
    scanStep nodes_by_id edges st node = Except.ok st ∨
      ∃ e, scanStep nodes_by_id edges st node = Except.error e := by
  unfold scanStep
  split
  · exact Or.inl rfl
  · dsimp only
    split
    · exact Or.inr (processNode_error _ _ _ _)
    · exact Or.inl rfl

/-- A full scan either raises or leaves the state unchanged. -/
theorem scan_cases (nodes_by_id : List (String × FlowNode))
    (edges : List FlowEdge) (nodes : List FlowNode) (st : GenState) :
    scan nodes_by_id edges nodes st = Except.ok st ∨
      ∃ e, scan nodes_by_id edges nodes st = Except.error e := by
  induction nodes with
  | nil => exact Or.inl rfl
  | cons n rest ih =>
      unfold scan
      rcases scanStep_cases nodes_by_id edges st n with h | ⟨e, h⟩
      · rw [h]; exact ih
      · rw [h]; exact Or.inr ⟨e, rfl⟩

/-- If a full scan makes no progress while unprocessed nodes remain, the
`while` loop never terminates. -/
theorem genLoop_stuck (nodes : List FlowNode)
    (nodes_by_id : List (String × FlowNode)) (edges : List FlowEdge)
    (st : GenState) (h1 : st.processed.length < nodes.length)
    (h2 : scan nodes_by_id edges nodes st = Except.ok st) :
    ∀ fuel, genLoop nodes nodes_by_id edges fuel st = none := by
  intro fuel
  induction fuel with
  | zero => simp [genLoop, h1]
  | succ n ih => simp [genLoop, h1, h2, ih]

/-- The `while` loop can only report completion from a state that already
has every node processed: since scans never grow `processed_nodes`, it
never returns `ok` from a deficient state. -/
theorem genLoop_never_ok (nodes : List FlowNode)
    (nodes_by_id : List (String × FlowNode)) (edges : List FlowEdge) :
    ∀ (fuel : Nat) (st : GenState), st.processed.length < nodes.length →
      ∀ st', genLoop nodes nodes_by_id edges fuel st ≠ some (Except.ok st') := by
  intro fuel
  induction fuel with
  | zero => intro st h st'; simp [genLoop, h]
  | succ n ih =>
      intro st h st'
      unfold genLoop
      rw [if_pos h]
      rcases scan_cases nodes_by_id edges nodes st with hs | ⟨e, hs⟩
      · rw [hs]; exact ih st h st'
      · rw [hs]; simp

/-- From the initial (empty) `processed_nodes`, a node whose input list is
empty — one with no incoming edges — is eligible, and processing it raises;
so if any such node exists the first scan raises. -/
theorem scan_error_of_no_input_node (nodes_by_id : List (String × FlowNode))
    (edges : List FlowEdge) :
    ∀ (nodes : List FlowNode) (st : GenState), st.processed = [] →
      (∃ x ∈ nodes, get_input_nodes edges x.id = []) →
      ∃ e, scan nodes_by_id edges nodes st = Except.error e := by
  intro nodes
  induction nodes with
  | nil =>
      intro st _ h
      obtain ⟨x, hx, _⟩ := h
      exact absurd hx (List.not_mem_nil x)
  | cons n rest ih =>
      intro st hst h
      unfold scan
      by_cases hn : get_input_nodes edges n.id = []
      · have hstep : scanStep nodes_by_id edges st n
            = processNode nodes_by_id st n (get_input_nodes edges n.id) := by
          unfold scanStep
          dsimp only
          rw [if_neg (by simp [hst]), if_pos (by simp [hn])]
        obtain ⟨e, he⟩ := processNode_error nodes_by_id st n (get_input_nodes edges n.id)
        rw [hstep, he]
        exact ⟨e, rfl⟩
      · have hstep : scanStep nodes_by_id edges st n = Except.ok st := by
          unfold scanStep
          dsimp only
          rw [if_neg (by simp [hst]), if_neg]
          obtain ⟨i, his⟩ := List.exists_mem_of_ne_nil _ hn
          intro hall
          have := List.all_eq_true.mp hall i his
          simp [hst] at this
        rw [hstep]
        apply ih st hst
        obtain ⟨x, hx, hxi⟩ := h
        rcases List.mem_cons.mp hx with rfl | hx'
        · exact absurd hxi hn
        · exact ⟨x, hx', hxi⟩

/-! ### `generate_python_code` never reads `selected_output_fields` -/

/-- Dict assignment commutes with mapping the stored nodes, because
`set_selected_output_fields` keeps ids unchanged. -/
theorem pyInsert_mapVal (v : Option (List String))
    (d : List (String × FlowNode)) (k : String) (n : FlowNode) :
    pyInsert (pyMapVal (set_selected_output_fields v) d) k
        (set_selected_output_fields v n)
      = pyMapVal (set_selected_output_fields v) (pyInsert d k n) := by
  induction d with
  | nil => rfl
  | cons p rest ih =>
      by_cases h : p.1 = k
      · simp [pyMapVal, pyInsert, h]
      · simp only [pyMapVal, List.map_cons, pyInsert, h, if_false]
        simpa [pyMapVal] using ih

/-- Building `nodes_by_id` from the mapped node list maps the stored
values. -/
theorem nodes_by_id_map (v : Option (List String)) (nodes : List FlowNode) :
    nodes_by_id_of (nodes.map (set_selected_output_fields v))
      = pyMapVal (set_selected_output_fields v) (nodes_by_id_of nodes) := by
  have key : ∀ (ns : List FlowNode) (d : List (String × FlowNode)),
      (ns.map (set_selected_output_fields v)).foldl
          (fun d n => pyInsert d n.id n)
          (pyMapVal (set_selected_output_fields v) d)
        = pyMapVal (set_selected_output_fields v)
            (ns.foldl (fun d n => pyInsert d n.id n) d) := by
    intro ns
    induction ns with
    | nil => intro d; rfl
    | cons n rest ih =>
        intro d
        simp only [List.map_cons, List.foldl_cons]
        rw [show (set_selected_output_fields v n).id = n.id from rfl,
          pyInsert_mapVal, ih]
  simpa [nodes_by_id_of, pyMapVal] using key nodes []

/-- Looking up a mapped dict maps the result. -/
theorem pyLookup_mapVal (v : Option (List String))
    (d : List (String × FlowNode)) (k : String) :
    pyLookup (pyMapVal (set_selected_output_fields v) d) k
      = (pyLookup d k).map (set_selected_output_fields v) := by
  induction d with
  | nil => rfl
  | cons p rest ih =>
      by_cases h : p.1 = k
      · simp [pyMapVal, pyLookup, h]
      · simp only [pyMapVal, List.map_cons, pyLookup, h, if_false]
        simpa [pyMapVal] using ih

/-- The selected-fields loop behaves the same on the mapped dict: each
iteration either misses the dict (same `KeyError`) or raises the
`AttributeError` without inspecting the node found. -/
theorem collectSelectedFields_mapVal (v : Option (List String))
    (nodes_by_id : List (String × FlowNode)) (l acc : List String) :
    collectSelectedFields (pyMapVal (set_selected_output_fields v) nodes_by_id) l acc
      = collectSelectedFields nodes_by_id l acc := by
  cases l with
  | nil => rfl
  | cons i rest =>
      unfold collectSelectedFields
      dsimp only
      rw [pyLookup_mapVal]
      cases pyLookup nodes_by_id i <;> rfl

/-- `input_construction` is insensitive to `selected_output_fields`. -/
theorem buildInputConstruction_mapVal (v : Option (List String))
    (nodes_by_id : List (String × FlowNode)) (input_nodes : List String) :
    buildInputConstruction (pyMapVal (set_selected_output_fields v) nodes_by_id)
        input_nodes
      = buildInputConstruction nodes_by_id input_nodes := by
  cases input_nodes with
  | nil => rfl
  | cons i rest =>
      unfold buildInputConstruction
      rw [collectSelectedFields_mapVal]

/-- The loop body is insensitive to `selected_output_fields`. -/
theorem processNode_mapVal (v : Option (List String))
    (nodes_by_id : List (String × FlowNode)) (st : GenState)
    (node : FlowNode) (input_nodes : List String) :
    processNode (pyMapVal (set_selected_output_fields v) nodes_by_id) st
        (set_selected_output_fields v node) input_nodes
      = processNode nodes_by_id st node input_nodes := by
  unfold processNode
  dsimp only
  rw [buildInputConstruction_mapVal]
  rfl

/-- A scan step is insensitive to `selected_output_fields`. -/
theorem scanStep_mapVal (v : Option (List String))
    (nodes_by_id : List (String × FlowNode)) (edges : List FlowEdge)
    (st : GenState) (node : FlowNode) :
    scanStep (pyMapVal (set_selected_output_fields v) nodes_by_id) edges st
        (set_selected_output_fields v node)
      = scanStep nodes_by_id edges st node := by
  unfold scanStep
  dsimp only
  rw [show (set_selected_output_fields v node).id = node.id from rfl,
    processNode_mapVal]

/-- A full scan is insensitive to `selected_output_fields`. -/
theorem scan_mapVal (v : Option (List String))
    (nodes_by_id : List (String × FlowNode)) (edges : List FlowEdge) :
    ∀ (nodes : List FlowNode) (st : GenState),
      scan (pyMapVal (set_selected_output_fields v) nodes_by_id) edges
          (nodes.map (set_selected_output_fields v)) st
        = scan nodes_by_id edges nodes st := by
  intro nodes
  induction nodes with
  | nil => intro st; rfl
  | cons n rest ih =>
      intro st
      simp only [List.map_cons]
      unfold scan
      rw [scanStep_mapVal]
      cases scanStep nodes_by_id edges st n with
      | error e => rfl
      | ok st' => exact ih st'

/-- The whole `while` loop is insensitive to `selected_output_fields`. -/
theorem genLoop_mapVal (v : Option (List String))
    (nodes : List FlowNode) (nodes_by_id : List (String × FlowNode))
    (edges : List FlowEdge) :
    ∀ (fuel : Nat) (st : GenState),
      genLoop (nodes.map (set_selected_output_fields v))
          (pyMapVal (set_selected_output_fields v) nodes_by_id) edges fuel st
        = genLoop nodes nodes_by_id edges fuel st := by
  intro fuel
  induction fuel with
  | zero => intro st; simp [genLoop]
  | succ k ih =>
      intro st
      unfold genLoop
      rw [List.length_map, scan_mapVal]
      cases scan nodes_by_id edges nodes st with
      | error e => rfl
      | ok st' => simp only [ih]

/-- The emitted output-model section only reads `output_structure`, which
`set_selected_output_fields` leaves unchanged. -/
theorem outputModelLines_map (v : Option (List String)) (nodes : List FlowNode) :
    outputModelLines (nodes.map (set_selected_output_fields v))
      = outputModelLines nodes := by
  unfold outputModelLines
  rw [List.foldl_map]
  rfl

/-! ### Claim theorems -/

/-- C1: the claim says the dependency-resolution loop of
`generate_python_code` terminates on cyclic graphs and reports a
cycle error.  The code has no such branch: on the self-loop graph
(one node `A`, edge `A → A`) no node is ever eligible, every scan leaves
the state unchanged, and the `while` loop of line 263 runs forever — for
every fuel the loop is still running, so the function neither raises nor
returns. -/
theorem c1_cycle_scan_diverges :
    ∀ fuel, generate_python_code fuel selfLoopNodes selfLoopEdges = none := by
  intro fuel
  unfold generate_python_code
  dsimp only
  rw [genLoop_stuck selfLoopNodes (nodes_by_id_of selfLoopNodes) selfLoopEdges
    ⟨[], [], headerLines ++ outputModelLines selfLoopNodes ++ flowHeaderLines⟩
    (by decide) rfl]

/-- C2: the claim says that on an acyclic graph the processing loop of
`generate_python_code` terminates emitting a topological ordering.  On the
one-node, zero-edge graph the first (and only) node is eligible at once,
but its body raises `AttributeError` reading the undeclared attribute
`systemPrompts` (line 308), so no node is ever emitted. -/
theorem c2_acyclic_crash :
    generate_python_code 1 singleNodeA []
      = some (Except.error (PyErr.attributeError "systemPrompts")) := rfl

/-- C3: the claim says two no-input nodes declared `[A, B]` are emitted
with `A` before `B`.  On that graph nothing at all is emitted: processing
the first eligible node raises `AttributeError('systemPrompts')`. -/
theorem c3_tiebreak_crash :
    generate_python_code 1 pairNodesAB []
      = some (Except.error (PyErr.attributeError "systemPrompts")) := rfl

/-- C4 counterexample: the claim says `create_output_model` fails on a
field whose type tag is outside the recognized set.  On the tag
`"banana"` it succeeds and silently resolves the field to the fallback
`typing.Any` (the default of `field_types.get` at line 101). -/
theorem c4_counterexample :
    create_output_model ⟨"M", [⟨"x", "banana", none⟩]⟩
      = { name := "M", fields := [("x", PyType.any, "")] } := rfl

/-- C4 amended: for every tag outside the closed recognized set
`{str, int, float, bool, list[str], dict}`, `field_types.get` yields the
fallback `Any` and `create_output_model` succeeds, silently coercing the
field — no tag is ever rejected. -/
theorem c4_unrecognized_tag_falls_back (t fname : String) (d : Option String)
    (h : t ∉ (["str", "int", "float", "bool", "list[str]", "dict"] : List String)) :
    field_types_get t = PyType.any ∧
      (create_output_model ⟨"M", [⟨fname, t, d⟩]⟩).fields
        = [(fname, PyType.any, d.getD "")] := by
  simp only [List.mem_cons, List.not_mem_nil, or_false, not_or] at h
  obtain ⟨h1, h2, h3, h4, h5, h6⟩ := h
  have hget : field_types_get t = PyType.any := by
    simp [field_types_get, h1, h2, h3, h4, h5, h6]
  refine ⟨hget, ?_⟩
  simp [create_output_model, pyInsert, hget]

/-- C4 amended, witnessed at the concrete tag `"banana"`. -/
theorem c4_unrecognized_tag_falls_back_witness :
    field_types_get "banana" = PyType.any ∧
      (create_output_model ⟨"M", [⟨"x", "banana", none⟩]⟩).fields
        = [("x", PyType.any, "")] :=
  c4_unrecognized_tag_falls_back "banana" "x" none (by decide)

/-- C5 counterexample: the claim says a node whose
`selected_output_fields = ["x"]` is absent from its own
`output_structure.fields` makes compilation fail with a field-reference
error.  On such a node compilation fails with the unrelated
`AttributeError('systemPrompts')`, and its outcome is byte-identical to
the outcome on the node with the valid selection `["y"]` — the dangling
reference is not inspected at all. -/
theorem c5_counterexample :
    generate_python_code 1 [danglingSelNode] []
        = some (Except.error (PyErr.attributeError "systemPrompts")) ∧
      generate_python_code 1 [danglingSelNode] []
        = generate_python_code 1 [validSelNode] [] :=
  ⟨rfl, rfl⟩

/-- C5 amended: `generate_python_code` never reads
`selected_output_fields` — replacing every node's selection by an
arbitrary value leaves its result unchanged — so a dangling selected
field cannot be detected at compile time and no `InvalidFieldReference`
failure exists. -/
theorem c5_selected_fields_ignored (fuel : Nat) (v : Option (List String))
    (nodes : List FlowNode) (edges : List FlowEdge) :
    generate_python_code fuel (nodes.map (set_selected_output_fields v)) edges
      = generate_python_code fuel nodes edges := by
  unfold generate_python_code
  dsimp only
  rw [outputModelLines_map, nodes_by_id_map, genLoop_mapVal]

/-- C6: the claim describes the `"\n\nContext: "` binding for a node `C`
with inputs `[A, B]`.  On exactly that graph compilation raises
`AttributeError('systemPrompts')` while processing node `A`; the context
construction of lines 283-292 is never executed for `C`. -/
theorem c6_context_binding_crash :
    generate_python_code 1 contextNodes contextEdges
      = some (Except.error (PyErr.attributeError "systemPrompts")) := rfl

/-- C7: the claim says a node with an unrecognized `model_provider` makes
compilation fail with the provider error regardless of position.  With
`[A (openai), B (unknown)]` the failure is the `AttributeError` raised at
`A`, and `B`'s provider subscript is never reached; only when the unknown
provider node is itself the first eligible node does the `KeyError`
surface. -/
theorem c7_provider_check_preempted :
    generate_python_code 1 providerMixNodes []
        = some (Except.error (PyErr.attributeError "systemPrompts")) ∧
      generate_python_code 1 [unknownProviderNode] []
        = some (Except.error (PyErr.keyError "unknown")) :=
  ⟨rfl, rfl⟩

/-- C8: every `result.data` the `pydantic_ai` agent interface can return —
a `str` or an instance of the created output model — is classified by
`run_agent` as successful-unstructured or successful-structured; the
generic catch-all branch (`error="UnexpectedResultType"`, lines 184-189)
is unreachable for such values. -/
theorem c8_result_classification (d : PyData) (h : ReachableData d) :
    (handle_result_data d).error = none ∧
      ((∃ s, d = PyData.pyStr s ∧
          (handle_result_data d).structured_output = none) ∨
        (∃ fs, d = PyData.pyModelInstance fs ∧
          (handle_result_data d).structured_output = some fs)) := by
  cases h with
  | ofStr s => exact ⟨rfl, Or.inl ⟨s, rfl, rfl⟩⟩
  | ofStructured fs => exact ⟨rfl, Or.inr ⟨fs, rfl, rfl⟩⟩

/-- C8, witnessed at the concrete reachable value `pyStr "hi"`. -/
theorem c8_result_classification_witness :
    (handle_result_data (PyData.pyStr "hi")).error = none :=
  (c8_result_classification (PyData.pyStr "hi") (ReachableData.ofStr "hi")).1

/-- C9: `generate_python_code` is deterministic — it reads nothing but its
arguments (its set and dict locals are used for membership and lookup
only), so two invocations on equal node and edge lists return identical
results, byte for byte. -/
theorem c9_compile_deterministic (fuel : Nat)
    (nodes1 nodes2 : List FlowNode) (edges1 edges2 : List FlowEdge)
    (hn : nodes1 = nodes2) (he : edges1 = edges2) :
    generate_python_code fuel nodes1 edges1
      = generate_python_code fuel nodes2 edges2 := by
  rw [hn, he]

/-- C9, witnessed at a concrete repeated compilation. -/
theorem c9_compile_deterministic_witness :
    generate_python_code 1 [] [] = generate_python_code 1 [] [] :=
  c9_compile_deterministic 1 [] [] [] [] rfl rfl

/-- C10 counterexample: the claim says `generate_python_code` raises an
exception on every non-empty node list.  On the two-cycle `A → B → A` it
neither raises nor returns: no node is ever eligible and the `while` loop
runs forever. -/
theorem c10_counterexample : loopsForeverOn twoCycleNodes twoCycleEdges := by
  intro fuel
  unfold generate_python_code
  dsimp only
  rw [genLoop_stuck twoCycleNodes (nodes_by_id_of twoCycleNodes) twoCycleEdges
    ⟨[], [], headerLines ++ outputModelLines twoCycleNodes ++ flowHeaderLines⟩
    (by decide) rfl]

/-- C10 amended: for every non-empty node list `generate_python_code`
never returns generated source — `processed_nodes` can never grow, so the
loop can never report completion — and whenever some node has no incoming
edge the first scan raises an exception (`KeyError` for an unrecognized
provider, otherwise `AttributeError('systemPrompts')`). -/
theorem c10_nonempty_never_succeeds (nodes : List FlowNode)
    (edges : List FlowEdge) (fuel : Nat) (h : nodes ≠ []) :
    (∀ s, generate_python_code fuel nodes edges ≠ some (Except.ok s)) ∧
      ((∃ x ∈ nodes, get_input_nodes edges x.id = []) →
        ∃ e, generate_python_code (fuel + 1) nodes edges
          = some (Except.error e)) := by
  have hlen : 0 < nodes.length := List.length_pos.mpr h
  have hst : (GenState.mk [] []
      (headerLines ++ outputModelLines nodes ++ flowHeaderLines)).processed.length
        < nodes.length := hlen
  constructor
  · intro s
    unfold generate_python_code
    dsimp only
    intro hc
    cases hg : genLoop nodes (nodes_by_id_of nodes) edges fuel
        ⟨[], [], headerLines ++ outputModelLines nodes ++ flowHeaderLines⟩ with
    | none => rw [hg] at hc; exact Option.noConfusion hc
    | some r =>
        cases r with
        | error e => rw [hg] at hc; simp at hc
        | ok st =>
            exact genLoop_never_ok nodes (nodes_by_id_of nodes) edges fuel
              ⟨[], [], headerLines ++ outputModelLines nodes ++ flowHeaderLines⟩
              hst st hg
  · intro hex
    obtain ⟨e, he⟩ := scan_error_of_no_input_node (nodes_by_id_of nodes) edges
      nodes ⟨[], [], headerLines ++ outputModelLines nodes ++ flowHeaderLines⟩
      rfl hex
    refine ⟨e, ?_⟩
    unfold generate_python_code
    dsimp only
    unfold genLoop
    rw [if_pos hst, he]

/-- C10 amended, witnessed on the concrete one-node graph. -/
theorem c10_nonempty_never_succeeds_witness :
    generate_python_code 1 singleNodeA [] ≠ some (Except.ok "") :=
  (c10_nonempty_never_succeeds singleNodeA [] 1
    (List.cons_ne_nil _ _)).1 ""

end PydanticAiFlow
